import Mathlib

/-!
Verification of the floating-overlay position/visibility state machine of
`app/view/floating_window/levitation.py` (class `LevitationWindow` and the
collapsed-indicator widgets) against its natural-language specification.

Coordinates are integers in virtual-desktop space, as in Qt.  A Qt rectangle
is stored as (left, top, width, height); `right = left + width - 1` and
`bottom = top + height - 1` follow Qt's convention, which is what the code
relies on (`geo.right() - self.width() + 1` etc.).  Python's floor division
`//` is embedded as `Int.fdiv`.
-/

namespace SecRandom

/-- A Qt-style rectangle: `right`/`bottom` are inclusive edges. -/
structure QRect where
  left : Int
  top : Int
  width : Int
  height : Int
  deriving DecidableEq, Repr

def QRect.right (r : QRect) : Int := r.left + r.width - 1

def QRect.bottom (r : QRect) : Int := r.top + r.height - 1

/-- `LevitationWindow._clamp_to_screen` (levitation.py:294-300):
`cx = max(geo.left(), min(x, geo.right() - self.width() + 1))` and likewise
for `cy` with top/bottom/height.  `w`,`h` are the panel's frame size. -/
def clamp_to_screen (geo : QRect) (w h x y : Int) : Int × Int :=
  (max geo.left (min x (geo.right - w + 1)),
   max geo.top (min y (geo.bottom - h + 1)))

/-- Claim C3 (counterexample): on a 10-wide display, a 20-wide panel cannot be
contained, and `clamp_to_screen` indeed returns a position whose panel
rectangle sticks out: the claim fails for panel sizes larger than the
display. -/
theorem clamp_to_screen_not_contained_cex :
    ¬ (QRect.left ⟨0, 0, 10, 10⟩ ≤ (clamp_to_screen ⟨0, 0, 10, 10⟩ 20 10 0 0).1 ∧
       (clamp_to_screen ⟨0, 0, 10, 10⟩ 20 10 0 0).1 + 20 - 1 ≤ QRect.right ⟨0, 0, 10, 10⟩ ∧
       QRect.top ⟨0, 0, 10, 10⟩ ≤ (clamp_to_screen ⟨0, 0, 10, 10⟩ 20 10 0 0).2 ∧
       (clamp_to_screen ⟨0, 0, 10, 10⟩ 20 10 0 0).2 + 10 - 1 ≤ QRect.bottom ⟨0, 0, 10, 10⟩) := by
  decide

/-- Claim C3 (amended): for every display rectangle `D` and every panel size
that fits on the display (`w ≤ D.width`, `h ≤ D.height`),
`_clamp_to_screen (x, y)` returns `(cx, cy)` with the whole panel rectangle
`[cx, cx+w-1] × [cy, cy+h-1]` contained in `D`. -/
theorem clamp_to_screen_contained (geo : QRect) (w h x y : Int)
    (hw : w ≤ geo.width) (hh : h ≤ geo.height) :
    geo.left ≤ (clamp_to_screen geo w h x y).1 ∧
    (clamp_to_screen geo w h x y).1 + w - 1 ≤ geo.right ∧
    geo.top ≤ (clamp_to_screen geo w h x y).2 ∧
    (clamp_to_screen geo w h x y).2 + h - 1 ≤ geo.bottom := by
  simp only [clamp_to_screen, QRect.right, QRect.bottom] at *
  omega

/-- Claim C3 witness: a concrete screen, panel size and desired position. -/
theorem clamp_to_screen_contained_witness :
    QRect.left ⟨0, 0, 10, 10⟩ ≤ (clamp_to_screen ⟨0, 0, 10, 10⟩ 5 5 100 (-3)).1 ∧
    (clamp_to_screen ⟨0, 0, 10, 10⟩ 5 5 100 (-3)).1 + 5 - 1 ≤ QRect.right ⟨0, 0, 10, 10⟩ ∧
    QRect.top ⟨0, 0, 10, 10⟩ ≤ (clamp_to_screen ⟨0, 0, 10, 10⟩ 5 5 100 (-3)).2 ∧
    (clamp_to_screen ⟨0, 0, 10, 10⟩ 5 5 100 (-3)).2 + 5 - 1 ≤ QRect.bottom ⟨0, 0, 10, 10⟩ :=
  clamp_to_screen_contained ⟨0, 0, 10, 10⟩ 5 5 100 (-3) (by decide) (by decide)

/-- Which screen edge an indicator points at / the panel is stuck to. -/
inductive Direction
  | left
  | right
  deriving DecidableEq, Repr

/-- The newer auto-hide indicator: either the 30x30 storage window
(`_create_storage_window`, `_stick_indicator_style == 0`) or the 30x30
draggable arrow button (`_create_arrow_button`, any other style).  The two
`Int`s are the position it is created at. -/
inductive AutoIndicator
  | storage (dir : Direction) (x y : Int)
  | arrow (dir : Direction) (x y : Int)
  deriving DecidableEq, Repr

/-- The `LevitationWindow` fields the verified operations read and write.
`x, y, w, h` are the panel's frame geometry; `stick_to_edge` is
`self._stick_to_edge`; `auto_hide` is `self.floating_window_stick_to_edge`
(the `flash_window_side_switch` auto-hide-on-dock flag);
`indicator_style` is `self._stick_indicator_style`; `retract_seconds` is
`self._retract_seconds`; `legacy_indicator` is `self._indicator`;
`auto_indicator` is `self.storage_window` / `self.arrow_widget`;
`original_position` is `self._original_position` (absent = attribute not
set); `store` holds the persisted `float_position` (x, y) of the settings
store and `pos_changed_emits` counts `positionChanged` emissions;
`retract_timer_active`/`retract_deadline` model the single-shot
`self._retract_timer`. -/
structure OverlayState where
  x : Int
  y : Int
  w : Int
  h : Int
  stick_to_edge : Bool
  auto_hide : Bool
  indicator_style : Int
  retract_seconds : Int
  last_stuck : Bool
  retracted : Bool
  legacy_indicator : Option Direction
  auto_indicator : Option AutoIndicator
  original_position : Option (Int × Int)
  retract_timer_active : Bool
  retract_deadline : Nat
  store : Int × Int
  pos_changed_emits : Nat
  deriving DecidableEq, Repr

/-- `self._edge_threshold`, set to 5 in `__init__` and never changed. -/
def edge_threshold : Int := 5

/-- `LevitationWindow._show_indicator(direction)` (levitation.py:761-785):
clears any previous legacy indicator and installs a fresh one. -/
def show_indicator (d : Direction) (s : OverlayState) : OverlayState :=
  { s with legacy_indicator := some d }

/-- `LevitationWindow._clear_indicator` (levitation.py:787-791). -/
def clear_indicator (s : OverlayState) : OverlayState :=
  { s with legacy_indicator := none }

/-- `LevitationWindow._save_position` (levitation.py:1236-1239): writes the
current position to the `float_position` section of the settings store and
emits `positionChanged`. -/
def save_position (s : OverlayState) : OverlayState :=
  { s with store := (s.x, s.y), pos_changed_emits := s.pos_changed_emits + 1 }

/-- `LevitationWindow._stick_to_nearest_edge` (levitation.py:545-566):
on drag release, computes the gaps to the display's left and right edges
and snaps the panel flush when a gap is within `edge_threshold`; the legacy
indicator is only shown when the newer auto-hide feature is off. -/
def stick_to_nearest_edge (geo : QRect) (s : OverlayState) : OverlayState :=
  if s.stick_to_edge = false then s
  else
    let leftGap := s.x - geo.left
    let rightGap := geo.right - (s.x + s.w - 1)
    let s0 := { s with last_stuck := false }
    if leftGap ≤ edge_threshold then
      let s1 := { s0 with x := geo.left }
      let s2 := if s1.auto_hide = false then show_indicator Direction.left s1 else s1
      { s2 with last_stuck := true }
    else if rightGap ≤ edge_threshold then
      let s1 := { s0 with x := geo.right - s.w + 1 }
      let s2 := if s1.auto_hide = false then show_indicator Direction.right s1 else s1
      { s2 with last_stuck := true }
    else s0

/-- `LevitationWindow._schedule_retract` (levitation.py:568-573): arms the
single-shot `_retract_timer` for `retract_seconds * 1000` ms from `now`
(restarting it if already running); 0 disables. -/
def schedule_retract (now : Nat) (s : OverlayState) : OverlayState :=
  if s.stick_to_edge = false then s
  else if 0 < s.retract_seconds then
    { s with retract_timer_active := true,
             retract_deadline := now + (s.retract_seconds * 1000).toNat }
  else s

/-- `LevitationWindow._cancel_retract` (levitation.py:575-577). -/
def cancel_retract (s : OverlayState) : OverlayState :=
  if s.retract_timer_active = true then { s with retract_timer_active := false } else s

/-- The slots connected to `self._retract_timer.timeout`.  `__init__`
(levitation.py:44-46) creates the timer and makes it single-shot but never
calls `timeout.connect` on it, and no other code in the repository does
either (`_retract_into_edge` is defined at levitation.py:579 but never
connected or called), so this list is empty. -/
def retract_timeout_slots : List (OverlayState → OverlayState) := []

/-- Delivery of the `_retract_timer` timeout: the single-shot timer
deactivates and every connected slot runs.  Since no slot is connected,
only the timer flag changes. -/
def fire_retract_timer (s : OverlayState) : OverlayState :=
  retract_timeout_slots.foldl (fun st f => f st) { s with retract_timer_active := false }

/-- `LevitationWindow._retract_into_edge` (levitation.py:579-596): slides a
docked panel off-screen up to a 16 px handle and marks it retracted; the
legacy indicator is only shown when the auto-hide feature is off.  (This is
the evident intended handler of `_retract_timer`, but nothing ever connects
or calls it.) -/
def retract_into_edge (geo : QRect) (s : OverlayState) : OverlayState :=
  let handle : Int := 16
  if s.x ≤ geo.left then
    let s1 := { s with x := geo.left - s.w + handle, retracted := true }
    if s1.auto_hide = false then show_indicator Direction.right s1 else s1
  else if geo.right ≤ s.x + s.w then
    let s1 := { s with x := geo.right - handle + 1, retracted := true }
    if s1.auto_hide = false then show_indicator Direction.left s1 else s1
  else s

/-- `LevitationWindow._check_edge_proximity` (levitation.py:610-759), with
the slide-off animation taken to completion: clears any legacy indicator,
returns if auto-hide is off; near an edge it remembers the original
position (if not already remembered), drives the panel off-screen
(10 px remain) and creates the configured auto-hide indicator; otherwise,
strictly inside both thresholds it persists the position when not retracted
and forgets the original position, and in any non-edge case marks the panel
not retracted.  `screen` is the primary screen's available geometry; the
code compares against `screen.width()`. -/
def check_edge_proximity (screen : QRect) (s : OverlayState) : OverlayState :=
  let s := clear_indicator s
  if s.auto_hide = false then s
  else
    let thr : Int := 5
    let hiddenW : Int := 10
    if s.x ≤ thr then
      let s := if s.original_position = none then
                 { s with original_position := some (s.x, s.y) } else s
      let ind := if s.indicator_style = 0 then
                   AutoIndicator.storage Direction.right 0 (s.y + Int.fdiv s.h 2 - 30)
                 else
                   AutoIndicator.arrow Direction.right 0 (s.y + Int.fdiv s.h 2 - 15)
      { s with x := -s.w + hiddenW, auto_indicator := some ind, retracted := true }
    else if screen.width - thr ≤ s.x + s.w then
      let s := if s.original_position = none then
                 { s with original_position := some (s.x, s.y) } else s
      let ind := if s.indicator_style = 0 then
                   AutoIndicator.storage Direction.left (screen.width - 30)
                     (s.y + Int.fdiv s.h 2 - 30)
                 else
                   AutoIndicator.arrow Direction.left (screen.width - 30)
                     (s.y + Int.fdiv s.h 2 - 15)
      { s with x := screen.width - hiddenW, auto_indicator := some ind, retracted := true }
    else
      let s := if thr < s.x ∧ s.x + s.w < screen.width - thr then
                 let s := if s.retracted = false then save_position s else s
                 { s with original_position := none }
               else s
      { s with retracted := false }

/-- `LevitationWindow._expand_window` (levitation.py:1117-1224), both
animations taken to completion: only acts when the storage window exists;
deletes it, then moves the panel to the remembered `_original_position`
when present, else to a freshly computed edge position from the current
(off-screen) x — and when neither fallback branch applies, `target_x` is
unbound in the Python source and the callback raises, modelled as `none`. -/
def expand_window (screen : QRect) (s : OverlayState) : Option OverlayState :=
  match s.auto_indicator with
  | some (AutoIndicator.storage _ _ _) =>
    let s1 := { s with auto_indicator := none }
    match s1.original_position with
    | some p => some { s1 with x := p.1, y := p.2, retracted := false }
    | none =>
      if s1.x < screen.left then
        some { s1 with x := screen.left, retracted := false }
      else if screen.right < s1.x + s1.w then
        some { s1 with x := screen.right - s1.w + 1, retracted := false }
      else none
  | _ => some s

/-- `LevitationWindow._show_hidden_window(direction)`
(levitation.py:1354-1424), the slide-in animation taken to completion:
aligns the panel's vertical center with the 30 px arrow widget's center
(falling back to the panel's own position when the arrow is gone), clamps
to the screen's top/bottom, snaps x flush to the screen edge given by
`direction`, and deletes the arrow button.  It does not touch the
persisted position. -/
def show_hidden_window (screen : QRect) (dir : Direction) (s : OverlayState) :
    OverlayState :=
  let arrow := match s.auto_indicator with
    | some (AutoIndicator.arrow _ ax ay) => (ax, ay, (30 : Int))
    | _ => (s.x, s.y, (30 : Int))
  let wy0 := arrow.2.1 + Int.fdiv arrow.2.2 2 - Int.fdiv s.h 2
  let wy := if wy0 < screen.top then screen.top
            else if screen.bottom < wy0 + s.h then screen.bottom - s.h
            else wy0
  let ex := match dir with
    | Direction.right => screen.left
    | Direction.left => screen.right - s.w + 1
  { s with x := ex, y := wy, auto_indicator := none }

/-- The drag-end branch of `LevitationWindow.mouseReleaseEvent`
(levitation.py:446-457): snap to the nearest edge, then either arm the
retract timer (when stuck) or clear the legacy indicator, then persist the
position. -/
def drag_release_settle (geo : QRect) (now : Nat) (s : OverlayState) : OverlayState :=
  let s1 := stick_to_nearest_edge geo s
  let s2 := if s1.last_stuck = true then schedule_retract now s1 else clear_indicator s1
  save_position s2

/-- The drag-detector state of `LevitationWindow`: `press_pos` is
`self._press_pos`, `dragging` is `self._dragging`, the timer fields model
the single-shot `self._drag_timer` (connected to `_begin_drag` in
`__init__`, levitation.py:38-40), `long_press_ms` is `self._long_press_ms`
and `x, y` the panel position.  `ever_dragged` instruments the machine: it
is reset on press and set whenever `_begin_drag` runs, recording whether
the interaction ever entered the dragging state. -/
structure DragState where
  press_pos : Int × Int
  dragging : Bool
  ever_dragged : Bool
  timer_active : Bool
  timer_deadline : Nat
  long_press_ms : Nat
  x : Int
  y : Int
  deriving DecidableEq, Repr

/-- Pointer events delivered to the drag detector, each carrying its time in
ms.  `fire` is the delivery of the `_drag_timer` timeout. -/
inductive MEvent
  | press (t : Nat) (p : Int × Int)
  | move (t : Nat) (p : Int × Int)
  | fire (t : Nat)
  | release (t : Nat)
  deriving DecidableEq, Repr

/-- `LevitationWindow._begin_drag` (levitation.py:427-430). -/
def begin_drag (s : DragState) : DragState :=
  { s with dragging := true, ever_dragged := true }

/-- One step of the drag detector, for a primary-button interaction with
dragging enabled: `mousePressEvent` (levitation.py:420-425) records the
origin and restarts the long-press timer; `mouseMoveEvent`
(levitation.py:432-444) promotes to dragging when a per-axis displacement
from the origin reaches 3 px, and while dragging moves the window by the
incremental delta and re-bases the origin; timer expiry runs `_begin_drag`;
`mouseReleaseEvent` (levitation.py:446-457) stops the timer and leaves the
dragging state. -/
def dstep (s : DragState) (e : MEvent) : DragState :=
  match e with
  | MEvent.press t p =>
    { s with press_pos := p, dragging := false, ever_dragged := false,
             timer_active := true, timer_deadline := t + s.long_press_ms }
  | MEvent.move _ p =>
    let s1 := if s.dragging = false ∧
                 (3 ≤ (p.1 - s.press_pos.1).natAbs ∨ 3 ≤ (p.2 - s.press_pos.2).natAbs)
              then begin_drag s else s
    if s1.dragging = true then
      { s1 with x := s1.x + (p.1 - s1.press_pos.1), y := s1.y + (p.2 - s1.press_pos.2),
                press_pos := p }
    else s1
  | MEvent.fire _ =>
    if s.timer_active = true then begin_drag { s with timer_active := false } else s
  | MEvent.release _ =>
    { s with timer_active := false, dragging := false }

/-- Run the drag detector over a list of events. -/
def drun (s : DragState) (es : List MEvent) : DragState := List.foldl dstep s es

/-- The single-shot `_drag_timer` may only deliver its timeout at time `t`
when it is armed and its interval has elapsed. -/
def fire_allowed (s : DragState) (t : Nat) : Prop :=
  s.timer_active = true ∧ s.timer_deadline ≤ t

/-- The five quick-action identifiers of the overlay's buttons. -/
inductive BtnAction
  | roll_call
  | quick_draw
  | instant_draw
  | custom_draw
  | lottery
  deriving DecidableEq, Repr

/-- The `combos` table of `LevitationWindow._map_button_control`
(levitation.py:1500-1517), row for row. -/
def button_combos : List (List BtnAction) :=
  [[BtnAction.roll_call],
   [BtnAction.quick_draw],
   [BtnAction.instant_draw],
   [BtnAction.custom_draw],
   [BtnAction.lottery],
   [BtnAction.roll_call, BtnAction.quick_draw],
   [BtnAction.roll_call, BtnAction.custom_draw],
   [BtnAction.roll_call, BtnAction.lottery],
   [BtnAction.quick_draw, BtnAction.custom_draw],
   [BtnAction.quick_draw, BtnAction.lottery],
   [BtnAction.custom_draw, BtnAction.lottery],
   [BtnAction.roll_call, BtnAction.quick_draw, BtnAction.custom_draw],
   [BtnAction.roll_call, BtnAction.quick_draw, BtnAction.lottery],
   [BtnAction.roll_call, BtnAction.custom_draw, BtnAction.lottery],
   [BtnAction.quick_draw, BtnAction.custom_draw, BtnAction.lottery],
   [BtnAction.roll_call, BtnAction.quick_draw, BtnAction.custom_draw, BtnAction.lottery]]

/-- `LevitationWindow._map_button_control` (levitation.py:1499-1520):
out-of-range indices fall back to `combos[0]`. -/
def map_button_control (idx : Int) : List BtnAction :=
  if idx < 0 ∨ 16 ≤ idx then button_combos.headD []
  else button_combos.getD idx.toNat []

/-- Which row of the split-rows layout a button lands in.  `flow` stands for
the single row/column of placements 1 and 2. -/
inductive ButtonRow
  | top
  | bottom
  | flow
  deriving DecidableEq, Repr

/-- The row-assignment logic of `LevitationWindow._add_button`
(levitation.py:406-418): placements 1 and 2 use one flow layout; placement
0 puts `index < (total + 1) // 2` in the top row, the rest in the bottom
row. -/
def add_button_row (placement : Int) (index total : Nat) : ButtonRow :=
  if placement = 1 then ButtonRow.flow
  else if placement = 2 then ButtonRow.flow
  else if index < (total + 1) / 2 then ButtonRow.top
  else ButtonRow.bottom

/-- Claim C8: the button-combination lookup table has exactly 16 entries,
and mapping `button_control` index 5 yields the ordered button set
`[roll_call, quick_draw]`, in that order. -/
theorem button_table_spec :
    button_combos.length = 16 ∧
    map_button_control 5 = [BtnAction.roll_call, BtnAction.quick_draw] := by
  decide

/-- Claim C10: the button-control mapping is total over the integers — every
index yields a non-empty list, and every out-of-range index falls back to
the index-0 entry `[roll_call]`. -/
theorem map_button_control_total (idx : Int) :
    map_button_control idx ≠ [] ∧
    ((idx < 0 ∨ 16 ≤ idx) → map_button_control idx = [BtnAction.roll_call]) := by
  unfold map_button_control
  by_cases h : idx < 0 ∨ 16 ≤ idx
  · simp only [h, if_pos]
    exact ⟨by decide, fun _ => by decide⟩
  · simp only [h, if_neg, not_false_iff]
    refine ⟨?_, fun hc => hc.elim⟩
    push_neg at h
    obtain ⟨h0, h16⟩ := h
    interval_cases idx <;> decide

/-- Claim C10 witness: the out-of-range index 99 maps to `[roll_call]` and
index 7 maps to a non-empty list. -/
theorem map_button_control_total_witness :
    map_button_control 99 = [BtnAction.roll_call] ∧ map_button_control 7 ≠ [] :=
  ⟨(map_button_control_total 99).2 (Or.inr (by decide)),
   (map_button_control_total 7).1⟩

/-- Claim C9: with placement 0 (split-rows) the first `⌈total/2⌉ = (total+1)/2`
buttons go to the top row and the rest to the bottom row; in particular with
3 buttons, indices 0 and 1 land in the top row and index 2 in the bottom
row. -/
theorem add_button_split_rows :
    (∀ index total : Nat,
      add_button_row 0 index total =
        if index < (total + 1) / 2 then ButtonRow.top else ButtonRow.bottom) ∧
    (3 + 1) / 2 = 2 ∧
    add_button_row 0 0 3 = ButtonRow.top ∧
    add_button_row 0 1 3 = ButtonRow.top ∧
    add_button_row 0 2 3 = ButtonRow.bottom := by
  refine ⟨fun index total => ?_, by decide, by decide, by decide, by decide⟩
  simp [add_button_row]

/-- Claim C4: on drag release with stick-to-edge enabled, a left gap within
5 px docks the panel flush to the display's left edge; otherwise a right
gap within 5 px docks it flush at `right - width + 1`; otherwise the panel
does not move and is not stuck.  In particular a panel whose left edge is
at `displayRect.left + 3` docks left. -/
theorem stick_to_nearest_edge_spec (geo : QRect) (s : OverlayState)
    (hs : s.stick_to_edge = true) :
    (s.x - geo.left ≤ 5 →
      (stick_to_nearest_edge geo s).x = geo.left ∧
      (stick_to_nearest_edge geo s).last_stuck = true) ∧
    (¬ s.x - geo.left ≤ 5 → geo.right - (s.x + s.w - 1) ≤ 5 →
      (stick_to_nearest_edge geo s).x = geo.right - s.w + 1 ∧
      (stick_to_nearest_edge geo s).last_stuck = true) ∧
    (¬ s.x - geo.left ≤ 5 → ¬ geo.right - (s.x + s.w - 1) ≤ 5 →
      (stick_to_nearest_edge geo s).x = s.x ∧
      (stick_to_nearest_edge geo s).y = s.y ∧
      (stick_to_nearest_edge geo s).last_stuck = false) ∧
    (s.x = geo.left + 3 →
      (stick_to_nearest_edge geo s).x = geo.left ∧
      (stick_to_nearest_edge geo s).last_stuck = true) := by
  simp only [stick_to_nearest_edge, edge_threshold, show_indicator, hs]
  split_ifs with h1 h2 h3 <;> simp_all <;> omega

/-- Claim C4 witness: on a 100-wide display at origin, a 40-wide panel
released at x = 3 docks flush to the left edge. -/
theorem stick_to_nearest_edge_spec_witness :
    (stick_to_nearest_edge ⟨0, 0, 100, 100⟩
      { x := 3, y := 40, w := 40, h := 30, stick_to_edge := true, auto_hide := true,
        indicator_style := 0, retract_seconds := 5, last_stuck := false,
        retracted := false, legacy_indicator := none, auto_indicator := none,
        original_position := none, retract_timer_active := false,
        retract_deadline := 0, store := (3, 40), pos_changed_emits := 0 }).x = 0 ∧
    (stick_to_nearest_edge ⟨0, 0, 100, 100⟩
      { x := 3, y := 40, w := 40, h := 30, stick_to_edge := true, auto_hide := true,
        indicator_style := 0, retract_seconds := 5, last_stuck := false,
        retracted := false, legacy_indicator := none, auto_indicator := none,
        original_position := none, retract_timer_active := false,
        retract_deadline := 0, store := (3, 40), pos_changed_emits := 0 }).last_stuck
      = true :=
  (stick_to_nearest_edge_spec ⟨0, 0, 100, 100⟩ _ rfl).1 (by decide)

/-- Claim C7: the legacy pinned-edge indicator and the auto-hide indicator
are mutually exclusive, selected by the auto-hide flag: with auto-hide
enabled, edge docking and retraction never show the legacy indicator (and
never touch the auto-hide indicator); the proximity check always clears the
legacy indicator, only creates the auto-hide indicator when the flag is
enabled, and therefore never leaves both indicators present. -/
theorem legacy_auto_indicator_exclusive (geo screen : QRect) (s : OverlayState) :
    (s.auto_hide = true →
      (stick_to_nearest_edge geo s).legacy_indicator = s.legacy_indicator) ∧
    (s.auto_hide = true →
      (retract_into_edge geo s).legacy_indicator = s.legacy_indicator) ∧
    (stick_to_nearest_edge geo s).auto_indicator = s.auto_indicator ∧
    (retract_into_edge geo s).auto_indicator = s.auto_indicator ∧
    (check_edge_proximity screen s).legacy_indicator = none ∧
    (s.auto_hide = false →
      (check_edge_proximity screen s).auto_indicator = s.auto_indicator) ∧
    ¬((check_edge_proximity screen s).legacy_indicator ≠ none ∧
      (check_edge_proximity screen s).auto_indicator ≠ none) := by
  refine ⟨?_, ?_, ?_, ?_, ?_, ?_, ?_⟩
  · intro h
    simp only [stick_to_nearest_edge, edge_threshold, show_indicator, h]
    split_ifs <;> simp_all
  · intro h
    simp only [retract_into_edge, show_indicator, h]
    split_ifs <;> simp_all
  · simp only [stick_to_nearest_edge, edge_threshold, show_indicator]
    split_ifs <;> simp_all
  · simp only [retract_into_edge, show_indicator]
    split_ifs <;> simp_all
  · simp only [check_edge_proximity, clear_indicator, save_position]
    split_ifs <;> simp_all
  · intro h
    simp only [check_edge_proximity, clear_indicator, save_position, h]
    split_ifs <;> simp_all
  · simp only [check_edge_proximity, clear_indicator, save_position]
    split_ifs <;> simp_all

/-- A concrete overlay state for instantiating the general theorems: a 40x30
panel at (2, 10), stick-to-edge and auto-hide both enabled, storage-window
indicator style, 5 s retract delay, no indicator present. -/
def sample_state : OverlayState :=
  { x := 2, y := 10, w := 40, h := 30, stick_to_edge := true, auto_hide := true,
    indicator_style := 0, retract_seconds := 5, last_stuck := false,
    retracted := false, legacy_indicator := none, auto_indicator := none,
    original_position := none, retract_timer_active := false,
    retract_deadline := 0, store := (2, 10), pos_changed_emits := 0 }

/-- A concrete 100x100 display at the origin. -/
def sample_screen : QRect := ⟨0, 0, 100, 100⟩

/-- Claim C7 witness: a concrete docked state with auto-hide enabled. -/
theorem legacy_auto_indicator_exclusive_witness :
    (stick_to_nearest_edge sample_screen sample_state).legacy_indicator =
      sample_state.legacy_indicator ∧
    (check_edge_proximity sample_screen sample_state).legacy_indicator = none :=
  ⟨(legacy_auto_indicator_exclusive sample_screen sample_screen sample_state).1 rfl,
   (legacy_auto_indicator_exclusive sample_screen sample_screen
      sample_state).2.2.2.2.1⟩

/-- Claim C6: the persisted `float_position` (and the `positionChanged`
notification) changes under the proximity check exactly in its settled
non-edge branch with the panel not retracted and auto-hide on; the
auto-hide collapse branches and both expand-from-indicator paths leave the
persisted position and the notification count unchanged. -/
theorem position_persistence_frame (screen : QRect) (dir : Direction)
    (s : OverlayState) :
    ((check_edge_proximity screen s).store =
      (if s.auto_hide = true ∧ 5 < s.x ∧ s.x + s.w < screen.width - 5 ∧
          s.retracted = false
       then (s.x, s.y) else s.store)) ∧
    ((check_edge_proximity screen s).pos_changed_emits =
      (if s.auto_hide = true ∧ 5 < s.x ∧ s.x + s.w < screen.width - 5 ∧
          s.retracted = false
       then s.pos_changed_emits + 1 else s.pos_changed_emits)) ∧
    (∀ s', expand_window screen s = some s' →
      s'.store = s.store ∧ s'.pos_changed_emits = s.pos_changed_emits) ∧
    (show_hidden_window screen dir s).store = s.store ∧
    (show_hidden_window screen dir s).pos_changed_emits = s.pos_changed_emits := by
  refine ⟨?_, ?_, ?_, ?_, ?_⟩
  · simp only [check_edge_proximity, clear_indicator, save_position]
    split_ifs <;> simp_all <;> omega
  · simp only [check_edge_proximity, clear_indicator, save_position]
    split_ifs <;> simp_all <;> omega
  · intro s' h
    simp only [expand_window] at h
    rcases hai : s.auto_indicator with _ | ind
    · rw [hai] at h
      simp only [Option.some.injEq] at h
      subst h; exact ⟨rfl, rfl⟩
    · rcases ind with ⟨d, ix, iy⟩ | ⟨d, ix, iy⟩
      · rw [hai] at h
        rcases hop : s.original_position with _ | p
        · rw [hop] at h
          split_ifs at h <;> simp only [Option.some.injEq] at h <;>
            (subst h; exact ⟨rfl, rfl⟩)
        · rw [hop] at h
          simp only [Option.some.injEq] at h
          subst h; exact ⟨rfl, rfl⟩
      · rw [hai] at h
        simp only [Option.some.injEq] at h
        subst h; exact ⟨rfl, rfl⟩
  · simp only [show_hidden_window]
  · simp only [show_hidden_window]

/-- `_stick_to_nearest_edge` only moves the panel and manages the legacy
indicator: configuration, retraction and timer fields are untouched. -/
theorem stick_to_nearest_edge_frame (geo : QRect) (s : OverlayState) :
    (stick_to_nearest_edge geo s).stick_to_edge = s.stick_to_edge ∧
    (stick_to_nearest_edge geo s).retract_seconds = s.retract_seconds ∧
    (stick_to_nearest_edge geo s).retracted = s.retracted ∧
    (stick_to_nearest_edge geo s).retract_timer_active = s.retract_timer_active ∧
    (stick_to_nearest_edge geo s).retract_deadline = s.retract_deadline := by
  simp only [stick_to_nearest_edge, edge_threshold, show_indicator]
  split_ifs <;> simp_all

/-- Claim C1: docking with stick-to-edge enabled and retract delay `r > 0`
arms the single-shot retract timer for `r` seconds, and cancellation before
expiry never retracts the panel — but letting the timer expire also changes
nothing except the timer flag, because `_retract_timer.timeout` is
connected to no slot: the panel never transitions to the retracted state,
contradicting the specified `StuckVisible → RetractPending → Collapsed`
transition (`_retract_into_edge`, the evident handler, is dead code). -/
theorem retract_timer_dead_on_expiry (geo : QRect) (now : Nat) (s : OverlayState)
    (hstick : s.stick_to_edge = true) (hr : 0 < s.retract_seconds)
    (hret : s.retracted = false)
    (hstuck : (stick_to_nearest_edge geo s).last_stuck = true) :
    (drag_release_settle geo now s).retract_timer_active = true ∧
    (drag_release_settle geo now s).retract_deadline
      = now + (s.retract_seconds * 1000).toNat ∧
    (drag_release_settle geo now s).retracted = false ∧
    (cancel_retract (drag_release_settle geo now s)).retract_timer_active = false ∧
    (cancel_retract (drag_release_settle geo now s)).retracted = false ∧
    fire_retract_timer (drag_release_settle geo now s)
      = { drag_release_settle geo now s with retract_timer_active := false } := by
  obtain ⟨h1, h2, h3, h4, h5⟩ := stick_to_nearest_edge_frame geo s
  simp only [drag_release_settle, hstuck, if_pos, schedule_retract, h1, h2, h3,
    hstick, hr, if_neg, save_position, cancel_retract, fire_retract_timer,
    retract_timeout_slots, List.foldl_nil]
  split_ifs <;> simp_all

/-- Claim C1 witness: the sample panel released at x = 2 docks, the 5 s timer
is armed, and its expiry still leaves the panel unretracted. -/
theorem retract_timer_dead_on_expiry_witness :
    (drag_release_settle sample_screen 0 sample_state).retract_timer_active = true ∧
    (drag_release_settle sample_screen 0 sample_state).retract_deadline
      = 0 + ((5 : Int) * 1000).toNat ∧
    (drag_release_settle sample_screen 0 sample_state).retracted = false ∧
    (cancel_retract (drag_release_settle sample_screen 0
        sample_state)).retract_timer_active = false ∧
    (cancel_retract (drag_release_settle sample_screen 0
        sample_state)).retracted = false ∧
    fire_retract_timer (drag_release_settle sample_screen 0 sample_state)
      = { drag_release_settle sample_screen 0 sample_state with
          retract_timer_active := false } :=
  retract_timer_dead_on_expiry sample_screen 0 sample_state rfl (by decide) rfl
    (by decide)

/-- The pre-collapse state of the arrow-variant round trip: the sample panel
at (3, 40) with the arrow-button indicator style. -/
def c2_pre_state : OverlayState :=
  { sample_state with x := 3, y := 40, indicator_style := 1, store := (3, 40) }

/-- Claim C2 counterexample: with the arrow-button indicator variant, a
collapse begun at x = 3 followed by an expand triggered from the arrow
leaves the panel at x = 0, flush to the screen edge, not at its
pre-collapse x = 3. -/
theorem expand_arrow_not_pre_collapse_cex :
    (show_hidden_window sample_screen Direction.right
        (check_edge_proximity sample_screen c2_pre_state)).x ≠ c2_pre_state.x ∧
    (show_hidden_window sample_screen Direction.right
        (check_edge_proximity sample_screen c2_pre_state)).x = 0 ∧
    c2_pre_state.x = 3 := by
  decide

/-- Claim C2 (amended): for the storage-window indicator variant, a collapse
into the indicator followed by an expand triggered from it restores the
panel to exactly its pre-collapse coordinates; the arrow-button variant
instead recomputes a dock position flush to the screen edge. -/
theorem collapse_expand_storage_roundtrip (screen : QRect) (s : OverlayState)
    (hah : s.auto_hide = true) (hsty : s.indicator_style = 0)
    (horig : s.original_position = none)
    (hedge : s.x ≤ 5 ∨ screen.width - 5 ≤ s.x + s.w) :
    ∃ s', expand_window screen (check_edge_proximity screen s) = some s' ∧
      s'.x = s.x ∧ s'.y = s.y := by
  rcases hedge with hL | hR
  · simp [check_edge_proximity, expand_window, clear_indicator, save_position,
      hah, hsty, horig, hL]
  · by_cases hL : s.x ≤ 5
    · simp [check_edge_proximity, expand_window, clear_indicator, save_position,
        hah, hsty, horig, hL]
    · simp [check_edge_proximity, expand_window, clear_indicator, save_position,
        hah, hsty, horig, hL, hR]

/-- Claim C2 witness: the sample panel at (3, 40) with the storage-window
indicator style collapses at the left edge and expands back to (3, 40). -/
theorem collapse_expand_storage_roundtrip_witness :
    ∃ s', expand_window sample_screen
        (check_edge_proximity sample_screen
          { c2_pre_state with indicator_style := 0 }) = some s' ∧
      s'.x = ({ c2_pre_state with indicator_style := 0 } : OverlayState).x ∧
      s'.y = ({ c2_pre_state with indicator_style := 0 } : OverlayState).y :=
  collapse_expand_storage_roundtrip sample_screen
    { c2_pre_state with indicator_style := 0 } rfl rfl rfl (Or.inl (by decide))

/-- The collapsed state used to instantiate the expand frame property: the
sample panel hidden off-screen left with a storage indicator and a
remembered original position. -/
def c6_state : OverlayState :=
  { sample_state with
    x := -30, retracted := true,
    auto_indicator := some (AutoIndicator.storage Direction.right 0 25),
    original_position := some (2, 10) }

/-- Claim C6 witness: expanding the collapsed sample state leaves the
persisted position and the notification count unchanged. -/
theorem position_persistence_frame_witness :
    ({ c6_state with auto_indicator := none, x := 2, y := 10, retracted := false }
        : OverlayState).store = c6_state.store ∧
    ({ c6_state with auto_indicator := none, x := 2, y := 10, retracted := false }
        : OverlayState).pos_changed_emits = c6_state.pos_changed_emits :=
  (position_persistence_frame sample_screen Direction.right c6_state).2.2.1 _
    (by decide)

/-- Moves whose per-axis displacement from the press origin stays below 3 px
leave the drag detector pending: origin, flags and timer are unchanged. -/
theorem drun_small_moves (p0 : Int × Int) (dl : Nat) :
    ∀ (moves : List MEvent) (s : DragState),
      (∀ e ∈ moves, ∃ t p, e = MEvent.move t p ∧
        (p.1 - p0.1).natAbs < 3 ∧ (p.2 - p0.2).natAbs < 3) →
      s.press_pos = p0 → s.dragging = false → s.ever_dragged = false →
      s.timer_active = true → s.timer_deadline = dl →
      (drun s moves).press_pos = p0 ∧ (drun s moves).dragging = false ∧
      (drun s moves).ever_dragged = false ∧ (drun s moves).timer_active = true ∧
      (drun s moves).timer_deadline = dl := by
  intro moves
  induction moves with
  | nil => intro s _ h1 h2 h3 h4 h5; exact ⟨h1, h2, h3, h4, h5⟩
  | cons e es ih =>
    intro s hm h1 h2 h3 h4 h5
    obtain ⟨t, p, he, hx, hy⟩ := hm e (List.mem_cons_self e es)
    subst he
    have hstep : dstep s (MEvent.move t p) = s := by
      simp only [dstep, h1, h2]
      have hno : ¬(3 ≤ (p.1 - p0.1).natAbs ∨ 3 ≤ (p.2 - p0.2).natAbs) := by omega
      simp [hno, h2]
    have hrun : drun s (MEvent.move t p :: es) = drun s es := by
      simp only [drun, List.foldl_cons, hstep]
    rw [hrun]
    exact ih s (fun e' he' => hm e' (List.mem_cons_of_mem _ he')) h1 h2 h3 h4 h5

/-- Claim C5: a press whose subsequent moves all stay below the 3 px per-axis
threshold and which is released before the long-press deadline never enters
the dragging state (the long-press timer cannot validly fire before the
deadline, so the interaction is a click); a press held with no movement
until the long-press deadline passes, at which point the timer fires,
enters the dragging state. -/
theorem drag_detector_click_vs_longpress (s0 : DragState) (t0 t1 : Nat)
    (p0 : Int × Int) (moves : List MEvent)
    (hm : ∀ e ∈ moves, ∃ t p, e = MEvent.move t p ∧
      (p.1 - p0.1).natAbs < 3 ∧ (p.2 - p0.2).natAbs < 3) :
    (drun s0 (MEvent.press t0 p0 :: moves ++ [MEvent.release t1])).ever_dragged
      = false ∧
    (drun s0 (MEvent.press t0 p0 :: moves ++ [MEvent.release t1])).dragging
      = false ∧
    (∀ t, t < t0 + s0.long_press_ms →
      ¬ fire_allowed (drun s0 (MEvent.press t0 p0 :: moves)) t) ∧
    (∀ t, t0 + s0.long_press_ms ≤ t →
      fire_allowed (drun s0 [MEvent.press t0 p0]) t ∧
      (drun s0 [MEvent.press t0 p0, MEvent.fire t]).dragging = true) := by
  obtain ⟨i1, i2, i3, i4, i5⟩ :=
    drun_small_moves p0 (t0 + s0.long_press_ms) moves
      (dstep s0 (MEvent.press t0 p0)) hm rfl rfl rfl rfl rfl
  have happ : drun (dstep s0 (MEvent.press t0 p0)) (moves ++ [MEvent.release t1])
      = dstep (drun (dstep s0 (MEvent.press t0 p0)) moves) (MEvent.release t1) := by
    simp [drun, List.foldl_append]
  refine ⟨?_, ?_, ?_, ?_⟩
  · show (drun (dstep s0 (MEvent.press t0 p0))
      (moves ++ [MEvent.release t1])).ever_dragged = false
    rw [happ]
    simpa [dstep] using i3
  · show (drun (dstep s0 (MEvent.press t0 p0))
      (moves ++ [MEvent.release t1])).dragging = false
    rw [happ]
    simp [dstep]
  · intro t ht hfa
    have hfa2 : fire_allowed (drun (dstep s0 (MEvent.press t0 p0)) moves) t := hfa
    simp only [fire_allowed] at hfa2
    obtain ⟨hA, hD⟩ := hfa2
    rw [i5] at hD
    omega
  · intro t ht
    constructor
    · show fire_allowed (dstep s0 (MEvent.press t0 p0)) t
      simp only [fire_allowed, dstep]
      exact ⟨trivial, ht⟩
    · show (dstep (dstep s0 (MEvent.press t0 p0)) (MEvent.fire t)).dragging = true
      simp [dstep, begin_drag]

/-- Claim C5 witness: a press at (10, 10), one 1-2 px move at 100 ms and a
release at 300 ms (before the 500 ms deadline) stays a click, while letting
the timer fire at 500 ms enters dragging. -/
theorem drag_detector_click_vs_longpress_witness :
    (drun { press_pos := (0, 0), dragging := false, ever_dragged := false,
            timer_active := false, timer_deadline := 0, long_press_ms := 500,
            x := 10, y := 10 }
        (MEvent.press 0 (10, 10) :: [MEvent.move 100 (11, 12)]
          ++ [MEvent.release 300])).ever_dragged = false ∧
    (drun { press_pos := (0, 0), dragging := false, ever_dragged := false,
            timer_active := false, timer_deadline := 0, long_press_ms := 500,
            x := 10, y := 10 }
        (MEvent.press 0 (10, 10) :: [MEvent.move 100 (11, 12)]
          ++ [MEvent.release 300])).dragging = false ∧
    (∀ t, t < 0 + (500 : Nat) →
      ¬ fire_allowed
        (drun { press_pos := (0, 0), dragging := false, ever_dragged := false,
                timer_active := false, timer_deadline := 0, long_press_ms := 500,
                x := 10, y := 10 }
          (MEvent.press 0 (10, 10) :: [MEvent.move 100 (11, 12)])) t) ∧
    (∀ t, 0 + (500 : Nat) ≤ t →
      fire_allowed
        (drun { press_pos := (0, 0), dragging := false, ever_dragged := false,
                timer_active := false, timer_deadline := 0, long_press_ms := 500,
                x := 10, y := 10 }
          [MEvent.press 0 (10, 10)]) t ∧
      (drun { press_pos := (0, 0), dragging := false, ever_dragged := false,
              timer_active := false, timer_deadline := 0, long_press_ms := 500,
              x := 10, y := 10 }
          [MEvent.press 0 (10, 10), MEvent.fire t]).dragging = true) :=
  drag_detector_click_vs_longpress
    { press_pos := (0, 0), dragging := false, ever_dragged := false,
      timer_active := false, timer_deadline := 0, long_press_ms := 500,
      x := 10, y := 10 }
    0 300 (10, 10) [MEvent.move 100 (11, 12)]
    (by
      intro e he
      simp only [List.mem_singleton] at he
      subst he
      exact ⟨100, (11, 12), rfl, by decide, by decide⟩)

end SecRandom
